import Mathlib

/-!
Verification development for joe-l-mathew/kube-resource-suggest.

The Go sources are shallowly embedded below:
 - pkg/engine/engine.go   : quantity normalizer (parseCpuToNano, parseMemoryToBytes),
                            the recommendation calculator (makeSuggestion) and the
                            metrics-server / kubelet usage adapters;
 - pkg/engine/prometheus.go : the Prometheus (historical) adapter with its health probe;
 - pkg/reporter/reporter.go : the suggestion publisher (UpdateOrReport, isSpecEqual).

Modelling conventions:
 - Go int64 values are modelled as Int; where the source performs int64
   multiplications that can overflow, the wrap-around is made explicit with wrap64.
 - Go float64 arithmetic is modelled with exact rationals: the 1.2 safety
   multiplier becomes 6/5 and float division/multiplication is exact division
   and multiplication on Rat; the conversion int64(x) of a float truncates
   toward zero when the value is representable, and is implementation-dependent
   otherwise — the image is built on the x86-64 golang base image (Dockerfile),
   where every unrepresentable value (too large, infinite or NaN) converts to
   the integer-indefinite sentinel, the minimal int64; int64OfFloat models
   exactly that.
 - Network calls are modelled as oracle inputs carried in environment structures:
   the adapters become pure functions of (environment, workload).
 - Go fmt.Sprintf of a missing map key renders "<nil>"; missing keys are
   Option.none and rendered through fmtV.
-/

namespace KRS

/-- Two-complement wrap-around of a mathematical integer into the int64 range,
modelling Go's wrapping int64 multiplication. -/
def wrap64 (x : ℤ) : ℤ := (x + 2 ^ 63) % 2 ^ 64 - 2 ^ 63

def int64Max : ℤ := 2 ^ 63 - 1

def int64Min : ℤ := -(2 ^ 63)

/-- Go strings.HasSuffix, modelled at the character level (every suffix the
engine tests is ASCII, where Go's byte-level check coincides with the
character-level one). -/
def goHasSuffix (s suf : String) : Bool := suf.data.isSuffixOf s.data

/-- Go strings.TrimSuffix: drop the suffix when present, else return the string. -/
def goTrimSuffix (s suf : String) : String :=
  if goHasSuffix s suf then String.mk (s.data.take (s.data.length - suf.data.length))
  else s

/-- Numeric value of a list of decimal digit characters (callers have checked
that every character is a digit). -/
def digitsVal (cs : List Char) : ℕ :=
  cs.foldl (fun a c => a * 10 + (c.toNat - 48)) 0

/-- Helper consuming decimal digits with failure on the first non-digit. -/
def digitsToNatAux : List Char → ℕ → Option ℕ
  | [], acc => some acc
  | c :: cs, acc => if c.isDigit then digitsToNatAux cs (acc * 10 + (c.toNat - 48)) else none

/-- Parse a nonempty all-digit string into a natural number. -/
def digitsToNat? (cs : List Char) : Option ℕ :=
  match cs with
  | [] => none
  | _ => digitsToNatAux cs 0

/-- Syntax model of Go strconv.ParseInt(s, 10, 64): an optional sign followed by
a nonempty run of decimal digits. Returns the unclamped mathematical value. -/
def goParseIntRaw? (s : String) : Option ℤ :=
  match s.data with
  | '+' :: rest => (digitsToNat? rest).map Int.ofNat
  | '-' :: rest => (digitsToNat? rest).map (fun n => -(n : ℤ))
  | cs => (digitsToNat? cs).map Int.ofNat

/-- Go strconv.ParseInt(s, 10, 64) as used with its error ignored: syntax errors
yield 0, range errors yield the value clamped to the int64 range (Go returns the
clamped value together with ErrRange, and the engine discards the error). -/
def goParseInt64 (s : String) : ℤ :=
  match goParseIntRaw? s with
  | none => 0
  | some v => if v < int64Min then int64Min else if v > int64Max then int64Max else v

/-- Splits a leading run of decimal digits off a character list. -/
def takeDigits (cs : List Char) : List Char × List Char :=
  (cs.takeWhile Char.isDigit, cs.dropWhile Char.isDigit)

/-- ASCII lowercasing, as used by Go's parser for its case-insensitive
matching of special values, exponent markers and the base prefix. -/
def lowerChar (c : Char) : Char :=
  if 'A' ≤ c ∧ c ≤ 'Z' then Char.ofNat (c.toNat + 32) else c

/-- The value of a Go float64 as far as the engine observes it: a finite value
kept as an exact rational, an infinity, or NaN. -/
inductive GoFloat where
  | finite (q : ℚ)
  | posInf
  | negInf
  | nan
deriving DecidableEq

/-- The special forms of Go strconv.ParseFloat: optionally signed inf or
infinity, and unsigned nan, case-insensitive. Go's special() consumes a
prefix and ParseFloat then requires the whole string consumed, so only the
full-string matches survive. -/
def goParseSpecial? (s : List Char) : Option GoFloat :=
  let ls := s.map lowerChar
  if ls = "inf".data ∨ ls = "infinity".data ∨ ls = "+inf".data ∨ ls = "+infinity".data
    then some GoFloat.posInf
  else if ls = "-inf".data ∨ ls = "-infinity".data then some GoFloat.negInf
  else if ls = "nan".data then some GoFloat.nan
  else none

def isHexDigitChar (c : Char) : Bool :=
  c.isDigit || ('a' ≤ c && c ≤ 'f') || ('A' ≤ c && c ≤ 'F')

def hexDigitVal (c : Char) : ℕ :=
  if c.isDigit then c.toNat - 48
  else if 'a' ≤ c then c.toNat - 87
  else c.toNat - 55

def hexDigitsVal (cs : List Char) : ℕ :=
  cs.foldl (fun a c => a * 16 + hexDigitVal c) 0

def takeHexDigits (cs : List Char) : List Char × List Char :=
  (cs.takeWhile isHexDigitChar, cs.dropWhile isHexDigitChar)

/-- Scanner loop of Go strconv.underscoreOK. The saw character records the
kind of the previous character: caret for start of number, 0 for a digit or
the base prefix, the underscore itself, or bang for any other character. An
underscore is legal only directly after a digit or the base prefix and
directly before a digit. -/
def underscoreOKAux : Char → Bool → List Char → Bool
  | saw, _, [] => saw != '_'
  | saw, hex, c :: cs =>
    if c.isDigit || (hex && isHexDigitChar c) then underscoreOKAux '0' hex cs
    else if c = '_' then (if saw = '0' then underscoreOKAux '_' hex cs else false)
    else if saw = '_' then false
    else underscoreOKAux '!' hex cs

/-- Go strconv.underscoreOK, restricted to the sign and 0x prefix forms that
can reach ParseFloat. -/
def underscoreOK (s : List Char) : Bool :=
  let s1 := match s with
    | c :: r => if c = '+' ∨ c = '-' then r else s
    | [] => s
  match s1 with
  | '0' :: x :: r =>
    if lowerChar x = 'x' then underscoreOKAux '0' true r
    else underscoreOKAux '^' false s1
  | _ => underscoreOKAux '^' false s1

/-- Go's readFloat skips digit-separator underscores while scanning (their
placement is validated separately by underscoreOK), so the scan itself sees
the string with underscores removed. -/
def stripUnderscores (cs : List Char) : List Char :=
  cs.filter (fun c => c != '_')

/-- Smallest magnitude that strconv.ParseFloat reports as a range error: half
an ulp above the largest finite float64. Values at or beyond it round to
infinity under IEEE round-to-nearest-even and ParseFloat returns ErrRange. -/
def float64Threshold : ℚ := 2 ^ 1024 - 2 ^ 970

/-- Builds the result of a decimal scan from the mantissa digits value, the
fraction length and the decimal exponent, with ParseFloat's observable
contract: a zero mantissa is exact zero; a value at or beyond the float64
range is a range error (none — the engine only branches on err, so range and
syntax errors collapse); a huge exponent short-circuits (the value certainly
overflows); the in-range value is kept exact (the float64 rounding is
modelled as exact). Underflow to zero is not an error in ParseFloat, so tiny
values stay finite (their later truncation to int64 yields 0, as the
program's rounded float does). -/
def decFinish (sgn : ℚ) (mant : ℕ) (fracLen : ℕ) (exp : ℤ) : Option GoFloat :=
  if mant = 0 then some (GoFloat.finite 0)
  else if 400 < exp - (fracLen : ℤ) then none
  else
    let v : ℚ := sgn * (mant : ℚ) * (10 : ℚ) ^ (exp - (fracLen : ℤ))
    if float64Threshold ≤ |v| then none else some (GoFloat.finite v)

/-- Decimal number scan of ParseFloat (underscores already stripped):
digits [. digits] [(e|E) [sign] digits], at least one mantissa digit, the
whole string consumed. -/
def parseDec (sgn : ℚ) (cs : List Char) : Option GoFloat :=
  let p1 := takeDigits cs
  let p2 : List Char × List Char :=
    match p1.2 with
    | '.' :: r => takeDigits r
    | r => ([], r)
  if p1.1.isEmpty && p2.1.isEmpty then none
  else
    let mant := digitsVal (p1.1 ++ p2.1)
    match p2.2 with
    | [] => decFinish sgn mant p2.1.length 0
    | e :: r =>
      if lowerChar e = 'e' then
        let p3 : Bool × List Char :=
          match r with
          | '+' :: r2 => (true, r2)
          | '-' :: r2 => (false, r2)
          | r2 => (true, r2)
        let p4 := takeDigits p3.2
        if p4.1.isEmpty || !p4.2.isEmpty then none
        else decFinish sgn mant p2.1.length
          (if p3.1 then (digitsVal p4.1 : ℤ) else -(digitsVal p4.1 : ℤ))
      else none

/-- Builds the result of a hexadecimal scan: value mant * 2^(exp - 4*fracLen),
with the same range-error contract as the decimal case. -/
def hexFinish (sgn : ℚ) (mant : ℕ) (fracLen : ℕ) (exp : ℤ) : Option GoFloat :=
  if mant = 0 then some (GoFloat.finite 0)
  else if 1100 < exp - 4 * (fracLen : ℤ) then none
  else
    let v : ℚ := sgn * (mant : ℚ) * (2 : ℚ) ^ (exp - 4 * (fracLen : ℤ))
    if float64Threshold ≤ |v| then none else some (GoFloat.finite v)

/-- Hexadecimal float scan of ParseFloat, after the 0x prefix (underscores
stripped): hexdigits [. hexdigits] (p|P) [sign] digits; the binary exponent
part is mandatory. -/
def parseHex (sgn : ℚ) (cs : List Char) : Option GoFloat :=
  let p1 := takeHexDigits cs
  let p2 : List Char × List Char :=
    match p1.2 with
    | '.' :: r => takeHexDigits r
    | r => ([], r)
  if p1.1.isEmpty && p2.1.isEmpty then none
  else
    match p2.2 with
    | [] => none
    | p :: r =>
      if lowerChar p = 'p' then
        let p3 : Bool × List Char :=
          match r with
          | '+' :: r2 => (true, r2)
          | '-' :: r2 => (false, r2)
          | r2 => (true, r2)
        let p4 := takeDigits p3.2
        if p4.1.isEmpty || !p4.2.isEmpty then none
        else hexFinish sgn (hexDigitsVal (p1.1 ++ p2.1)) p2.1.length
          (if p3.1 then (digitsVal p4.1 : ℤ) else -(digitsVal p4.1 : ℤ))
      else none

/-- Number scan of ParseFloat: optional sign, then the hexadecimal form when
the original characters carry a 0x/0X prefix, else the decimal form. Go's
readFloat detects the base prefix before underscore skipping, so the prefix
is checked on the unstripped characters. -/
def goParseNumber? (s : List Char) : Option GoFloat :=
  let p1 : ℚ × List Char :=
    match s with
    | '+' :: r => (1, r)
    | '-' :: r => (-1, r)
    | r => (1, r)
  match p1.2 with
  | '0' :: x :: r =>
    if lowerChar x = 'x' then parseHex p1.1 (stripUnderscores r)
    else parseDec p1.1 (stripUnderscores p1.2)
  | _ => parseDec p1.1 (stripUnderscores p1.2)

/-- Model of Go strconv.ParseFloat(s, 64) as the engine consumes it: none
exactly when ParseFloat reports an error — the engine only branches on
err == nil, so syntax and range errors collapse — and otherwise the parsed
value: a special, or a finite value kept as the exact rational of the
literal. -/
def goParseFloat? (s : String) : Option GoFloat :=
  match goParseSpecial? s.data with
  | some f => some f
  | none => if underscoreOK s.data then goParseNumber? s.data else none

/-- Truncation toward zero of a rational: the mathematical value of Go's
float-to-int conversion whenever that value is representable. -/
def truncQ (q : ℚ) : ℤ := q.num.tdiv (q.den : ℤ)

/-- Go's int64(x) conversion of a finite float64. An out-of-range conversion
is implementation-dependent in Go; the repository builds its image on the
x86-64 golang base image, where CVTTSD2SI yields the integer-indefinite
sentinel — the minimal int64 — for every unrepresentable value, and that
sentinel is modelled here. -/
def int64OfFloat (q : ℚ) : ℤ :=
  if truncQ q < int64Min ∨ int64Max < truncQ q then int64Min else truncQ q

/-- Go's int64 conversion of a full float64 value: infinities and NaN are
unrepresentable and yield the same sentinel. -/
def int64OfGoFloat : GoFloat → ℤ
  | GoFloat.finite q => int64OfFloat q
  | GoFloat.posInf => int64Min
  | GoFloat.negInf => int64Min
  | GoFloat.nan => int64Min

/-- Multiplication of a float64 value by a positive finite constant, as in
val * 1e9: specials keep their kind and sign. A finite product that would
overflow float64 to infinity already exceeds the int64 range, so the
sentinel of the subsequent conversion is unaffected by keeping the product
exact. -/
def goFloatMulPos : GoFloat → ℚ → GoFloat
  | GoFloat.finite q, k => GoFloat.finite (q * k)
  | GoFloat.posInf, _ => GoFloat.posInf
  | GoFloat.negInf, _ => GoFloat.negInf
  | GoFloat.nan, _ => GoFloat.nan

/-- Go fmt.Sprintf("%v", m[k]) where a missing key prints the literal nil marker. -/
def fmtV (o : Option String) : String := o.getD "<nil>"

/-- Embeds parseCpuToNano of pkg/engine/engine.go: suffix n is nanocores, m is
millicores (x1e6), u is microcores (x1e3); otherwise a bare decimal number is
whole cores (x1e9); anything else normalizes to 0. -/
def parseCpuToNano (s : String) : ℤ :=
  if goHasSuffix s "n" then goParseInt64 (goTrimSuffix s "n")
  else if goHasSuffix s "m" then wrap64 (goParseInt64 (goTrimSuffix s "m") * 1000000)
  else if goHasSuffix s "u" then wrap64 (goParseInt64 (goTrimSuffix s "u") * 1000)
  else
    match goParseFloat? s with
    | some v => int64OfGoFloat (goFloatMulPos v 1000000000)
    | none => 0

/-- Embeds parseMemoryToBytes of pkg/engine/engine.go: binary suffixes Ki, Mi,
Gi; otherwise a bare integer is raw bytes (here the source checks the ParseInt
error, so an out-of-range integer yields 0); anything else normalizes to 0. -/
def parseMemoryToBytes (s : String) : ℤ :=
  if goHasSuffix s "Ki" then wrap64 (goParseInt64 (goTrimSuffix s "Ki") * 1024)
  else if goHasSuffix s "Mi" then wrap64 (goParseInt64 (goTrimSuffix s "Mi") * 1024 * 1024)
  else if goHasSuffix s "Gi" then wrap64 (goParseInt64 (goTrimSuffix s "Gi") * 1024 * 1024 * 1024)
  else
    match goParseIntRaw? s with
    | some v => if int64Min ≤ v ∧ v ≤ int64Max then v else 0
    | none => 0

/-- A resources sub-map of a container spec (requests or limits) as the engine
reads it: the cpu / memory keys, each rendered through Sprintf when present. -/
structure KVMap where
  cpu : Option String
  memory : Option String
deriving DecidableEq

/-- One container of the workload's pod template, restricted to the fields the
engine reads: the name and the resources.requests / resources.limits maps
(each map itself optional, matching the NestedMap found-or-nil distinction). -/
structure ContainerSpec where
  name : String
  requests : Option KVMap
  limits : Option KVMap
deriving DecidableEq

/-- Result record of the engine (SuggestionResult of pkg/engine/engine.go). -/
structure SuggestionResult where
  workloadName : String
  workloadType : String
  containerName : String
  containerIndex : ℕ
  totalContainers : ℕ
  podCount : ℤ
  cpuRequest : String
  cpuLimit : String
  memoryRequest : String
  memoryLimit : String
  status : String
  source : String
deriving DecidableEq

/-- Current CPU request of a container: parsed from requests.cpu when the
requests map exists (a missing key rendering as the nil marker), else 0. -/
def currentCpuReqNano (c : ContainerSpec) : ℤ :=
  match c.requests with
  | some r => parseCpuToNano (fmtV r.cpu)
  | none => 0

/-- Current memory request of a container, in bytes. -/
def currentMemReqBytes (c : ContainerSpec) : ℤ :=
  match c.requests with
  | some r => parseMemoryToBytes (fmtV r.memory)
  | none => 0

/-- Whether the limits map exists and declares a cpu key. -/
def hasCpuLimit (c : ContainerSpec) : Bool :=
  match c.limits with
  | some l => l.cpu.isSome
  | none => false

/-- Whether the limits map exists and declares a memory key. -/
def hasMemLimit (c : ContainerSpec) : Bool :=
  match c.limits with
  | some l => l.memory.isSome
  | none => false

/-- Current CPU limit (0 when absent, mirroring the zero int64 in the source). -/
def currentCpuLimNano (c : ContainerSpec) : ℤ :=
  match c.limits with
  | some l => match l.cpu with
    | some v => parseCpuToNano v
    | none => 0
  | none => 0

/-- Current memory limit in bytes (0 when absent). -/
def currentMemLimBytes (c : ContainerSpec) : ℤ :=
  match c.limits with
  | some l => match l.memory with
    | some v => parseMemoryToBytes v
    | none => 0
  | none => 0

/-- Buffered-and-floored CPU recommendation: usage x 1.2 (modelled as 6/5),
floored at 30 milli-cores = 30000000 nanocores. -/
def recommendedCpuNano (usage : ℚ) : ℚ :=
  let r := usage * (6 / 5)
  if r < 30 * 1000000 then 30 * 1000000 else r

/-- Buffered-and-floored memory recommendation: usage x 1.2, floored at
50 Mi = 52428800 bytes. -/
def recommendedMemBytes (usage : ℚ) : ℚ :=
  let r := usage * (6 / 5)
  if r < 50 * 1024 * 1024 then 50 * 1024 * 1024 else r

/-- roundUp5 of makeSuggestion: round a (milli/Mi) count up to a multiple of 5,
with 0 mapping to 0; Go integer division is truncation (tdiv) and the int64
addition and multiplication wrap around. -/
def roundUp5 (val : ℤ) : ℤ :=
  if val = 0 then 0 else wrap64 ((wrap64 (val + 4)).tdiv 5 * 5)

/-- roundNano of makeSuggestion: truncate nanocores to whole millicores, round
that count up to a multiple of 5, and rescale to nanocores with a wrapping
int64 multiplication. -/
def roundNano (nano : ℤ) : ℤ :=
  wrap64 (roundUp5 (nano.tdiv 1000000) * 1000000)

/-- roundBytes of makeSuggestion: truncate bytes to whole Mi, round that count
up to a multiple of 5, and rescale to bytes. The source's two successive
wrapping multiplications by 1024 collapse to one wrap of the product, since
wrapping is reduction modulo 2^64. -/
def roundBytes (b : ℤ) : ℤ :=
  wrap64 (roundUp5 (b.tdiv (1024 * 1024)) * 1024 * 1024)

/-- Published target CPU request in nanocores. -/
def targetCpuReqNano (usage : ℚ) : ℤ :=
  roundNano (int64OfFloat (recommendedCpuNano usage))

/-- Published target memory request in bytes. -/
def targetMemReqBytes (usage : ℚ) : ℤ :=
  roundBytes (int64OfFloat (recommendedMemBytes usage))

/-- Target CPU limit: when a cpu limit was declared and the current request is
positive, the previous limit:request ratio applied to the new target request
and re-rounded; otherwise equal to the target request. -/
def targetCpuLimNano (c : ContainerSpec) (usage : ℚ) : ℤ :=
  if hasCpuLimit c && decide (0 < currentCpuReqNano c) then
    roundNano (int64OfFloat ((targetCpuReqNano usage : ℚ) *
      ((currentCpuLimNano c : ℚ) / (currentCpuReqNano c : ℚ))))
  else targetCpuReqNano usage

/-- Target memory limit, analogous to the CPU case. -/
def targetMemLimBytes (c : ContainerSpec) (usage : ℚ) : ℤ :=
  if hasMemLimit c && decide (0 < currentMemReqBytes c) then
    roundBytes (int64OfFloat ((targetMemReqBytes usage : ℚ) *
      ((currentMemLimBytes c : ℚ) / (currentMemReqBytes c : ℚ))))
  else targetMemReqBytes usage

/-- Classification block of makeSuggestion, verbatim branch structure. -/
def statusOf (tCpu cCpu tMem cMem : ℤ) : String :=
  let cpuUp := decide (tCpu > cCpu)
  let memUp := decide (tMem > cMem)
  let cpuDown := decide (tCpu < cCpu)
  let memDown := decide (tMem < cMem)
  if cpuUp || memUp then "Underprovisioned"
  else if cpuDown && memDown then "Overprovisioned"
  else if cpuDown || memDown then "Overprovisioned"
  else "Optimal"

/-- fmtCpu of makeSuggestion: zero renders as the explicit not-set marker. -/
def fmtCpu (nano : ℤ) : String :=
  if nano = 0 then "0m (Not Set)" else toString (nano.tdiv 1000000) ++ "m"

/-- fmtMem of makeSuggestion. -/
def fmtMem (bytes : ℤ) : String :=
  if bytes = 0 then "0Mi (Not Set)" else toString (bytes.tdiv (1024 * 1024)) ++ "Mi"

/-- Embeds makeSuggestion of pkg/engine/engine.go: the pure recommendation
calculator turning (spec, observed usage) into the published record. -/
def makeSuggestion (workloadName workloadType containerName : String)
    (containerIndex totalContainers : ℕ) (podCount : ℤ)
    (usageCpuNano usageMemBytes : ℚ) (c : ContainerSpec) (source : String) :
    SuggestionResult :=
  let curCpuReq := currentCpuReqNano c
  let curMemReq := currentMemReqBytes c
  let curCpuLim := currentCpuLimNano c
  let curMemLim := currentMemLimBytes c
  let tCpuReq := targetCpuReqNano usageCpuNano
  let tMemReq := targetMemReqBytes usageMemBytes
  let tCpuLim := targetCpuLimNano c usageCpuNano
  let tMemLim := targetMemLimBytes c usageMemBytes
  { workloadName := workloadName
    workloadType := workloadType
    containerName := containerName
    containerIndex := containerIndex
    totalContainers := totalContainers
    podCount := podCount
    cpuRequest := fmtCpu curCpuReq ++ "->" ++ fmtCpu tCpuReq
    cpuLimit := fmtCpu curCpuLim ++ "->" ++ fmtCpu tCpuLim
    memoryRequest := fmtMem curMemReq ++ "->" ++ fmtMem tMemReq
    memoryLimit := fmtMem curMemLim ++ "->" ++ fmtMem tMemLim
    status := statusOf tCpuReq curCpuReq tMemReq curMemReq
    source := source }

/-- One container entry of a pod-metrics item, with the rendered usage values
(none models a missing key or nil usage map, which Sprintf renders as the nil
marker before parsing). -/
structure MetricContainer where
  name : String
  usageCpu : Option String
  usageMem : Option String
deriving DecidableEq

/-- One item of the metrics.k8s.io pod list. -/
structure PodMetric where
  containers : List MetricContainer
deriving DecidableEq

/-- The fields of a discovered workload that the engine reads. Selector
presence mirrors the found flag of NestedStringMap; containers come from the
pod template (entries that fail the map type assertion are not modelled). -/
structure Workload where
  name : String
  nsName : String
  kind : String
  selectorMatchLabels : Option (List (String × String))
  templateSpecFound : Bool
  containers : List ContainerSpec
deriving DecidableEq

/-- Oracle input of the metrics-server adapter: the result of listing
metrics.k8s.io pods for the workload's selector (none models a transport
error). -/
structure MSEnv where
  metricsResult : Option (List PodMetric)
deriving DecidableEq

/-- Inner summation loop of GenerateMetricsServerSuggestions: add up the usage
of the first container entry matching the name in each pod metric (the source
breaks after the first match). -/
def usageForContainer (items : List PodMetric) (cname : String) : ℤ × ℤ :=
  items.foldl
    (fun acc pm =>
      match pm.containers.find? (fun mc => mc.name == cname) with
      | some mc =>
          (acc.1 + parseCpuToNano (fmtV mc.usageCpu),
           acc.2 + parseMemoryToBytes (fmtV mc.usageMem))
      | none => acc)
    (0, 0)

/-- Embeds GenerateMetricsServerSuggestions of pkg/engine/engine.go. The early
nil returns (missing/empty selector, list error, zero metrics items, missing
template spec) become none; otherwise one suggestion per spec container, with
usage averaged over the pod count by truncating int64 division. -/
def generateMetricsServerSuggestions (env : MSEnv) (w : Workload) :
    Option (List SuggestionResult) :=
  match w.selectorMatchLabels with
  | none => none
  | some sel =>
    if sel.isEmpty then none
    else
      match env.metricsResult with
      | none => none
      | some items =>
        if items.isEmpty then none
        else if ¬ w.templateSpecFound then none
        else
          let podCount : ℤ := items.length
          some (w.containers.enum.map (fun p =>
            let totals := usageForContainer items p.2.name
            makeSuggestion w.name w.kind p.2.name p.1 w.containers.length podCount
              ((totals.1.tdiv podCount : ℤ) : ℚ) ((totals.2.tdiv podCount : ℤ) : ℚ)
              p.2 "MetricServer"))

/-- Per-container usage as decoded from one pod's kubelet stats summary. -/
structure ResourceUsage where
  cpuNano : ℤ
  memBytes : ℤ
deriving DecidableEq

/-- Metrics of a single pod from the kubelet summary (container name keyed). -/
structure PodMetricsK where
  containers : List (String × ResourceUsage)
deriving DecidableEq

/-- One pod of the core/v1 pod list, with the oracle outcome of the kubelet
summary query for it (none models a query error). -/
structure PodInfo where
  name : String
  phase : String
  metrics : Option PodMetricsK
deriving DecidableEq

/-- Oracle input of the kubelet adapter. -/
structure KubeletEnv where
  podsResult : Option (List PodInfo)
deriving DecidableEq

/-- The podMetricsMap construction of GenerateKubeletSuggestions: metrics of the
Running pods whose summary query succeeded. -/
def kubeletPodMetrics (pods : List PodInfo) : List PodMetricsK :=
  pods.filterMap (fun p => if p.phase == "Running" then p.metrics else none)

/-- Embeds GenerateKubeletSuggestions of pkg/engine/engine.go: list pods by
selector, collect per-pod kubelet summaries, and average usage over the pods
that answered (effectivePodCount). -/
def generateKubeletSuggestions (env : KubeletEnv) (w : Workload) :
    Option (List SuggestionResult) :=
  match w.selectorMatchLabels with
  | none => none
  | some sel =>
    if sel.isEmpty then none
    else
      match env.podsResult with
      | none => none
      | some pods =>
        if pods.isEmpty then none
        else if ¬ w.templateSpecFound then none
        else
          let pmList := kubeletPodMetrics pods
          if pmList.isEmpty then none
          else
            let effectivePodCount : ℤ := pmList.length
            some (w.containers.enum.map (fun p =>
              let totals := pmList.foldl
                (fun acc pm =>
                  match pm.containers.find? (fun kv => kv.1 == p.2.name) with
                  | some kv => (acc.1 + kv.2.cpuNano, acc.2 + kv.2.memBytes)
                  | none => acc)
                ((0 : ℤ), (0 : ℤ))
              makeSuggestion w.name w.kind p.2.name p.1 w.containers.length
                effectivePodCount
                ((totals.1.tdiv effectivePodCount : ℤ) : ℚ)
                ((totals.2.tdiv effectivePodCount : ℤ) : ℚ)
                p.2 "Kubelet"))

/-- Oracle input of the Prometheus adapter: the health probe outcome, the pod
list for the selector, and the per-container query results (none models a
query error or the no-data response; both make the source skip the container). -/
structure PromEnv where
  reachable : Bool
  podsResult : Option (List String)
  queryCpu : String → Option ℚ
  queryMem : String → Option ℚ

/-- Embeds GeneratePrometheusSuggestions of pkg/engine/prometheus.go: nil when
the probe fails, the template spec is missing, the selector is missing/empty,
the pod list errors or is empty, or every container's queries fail; otherwise
one suggestion per container whose CPU and memory queries both returned data,
with the CPU value (cores) scaled to nanocores. -/
def generatePrometheusSuggestions (env : PromEnv) (w : Workload) :
    Option (List SuggestionResult) :=
  if ¬ env.reachable then none
  else if ¬ w.templateSpecFound then none
  else
    match w.selectorMatchLabels with
    | none => none
    | some sel =>
      if sel.isEmpty then none
      else
        match env.podsResult with
        | none => none
        | some podNames =>
          if podNames.isEmpty then none
          else
            let results := w.containers.enum.filterMap (fun p =>
              match env.queryCpu p.2.name with
              | none => none
              | some maxCpu =>
                match env.queryMem p.2.name with
                | none => none
                | some maxMem =>
                  some (makeSuggestion w.name w.kind p.2.name p.1
                    w.containers.length (podNames.length : ℤ)
                    (maxCpu * 1000000000) maxMem p.2 "Prometheus"))
            if results.isEmpty then none else some results

/-- Combined oracle input of one evaluation pass over one workload. -/
structure Env where
  prom : PromEnv
  ms : MSEnv

/-- Embeds GenerateLogic of pkg/engine/engine.go: try the Prometheus path and
fall back to the metrics-server path when it yields nil. -/
def generateLogic (env : Env) (w : Workload) : Option (List SuggestionResult) :=
  match generatePrometheusSuggestions env.prom w with
  | some r => some r
  | none => generateMetricsServerSuggestions env.ms w

/-- The material spec fields of a ResourceSuggestion record as written by
UpdateOrReport of pkg/reporter/reporter.go. -/
structure SpecFields where
  workloadType : String
  containerName : String
  podCount : ℤ
  cpuRequest : String
  cpuLimit : String
  memoryRequest : String
  memoryLimit : String
  status : String
  source : String
deriving DecidableEq

/-- The newSpec map built by UpdateOrReport from a SuggestionResult. -/
def newSpecOf (s : SuggestionResult) : SpecFields :=
  { workloadType := s.workloadType
    containerName := s.containerName
    podCount := s.podCount
    cpuRequest := s.cpuRequest
    cpuLimit := s.cpuLimit
    memoryRequest := s.memoryRequest
    memoryLimit := s.memoryLimit
    status := s.status
    source := s.source }

/-- Embeds isSpecEqual of pkg/reporter/reporter.go: compare only the material
keys cpuRequest, cpuLimit, memoryRequest, memoryLimit, status (the source
renders each value with Sprintf and compares the strings). -/
def isSpecEqual (oldSpec newSpec : SpecFields) : Bool :=
  oldSpec.cpuRequest == newSpec.cpuRequest &&
  oldSpec.cpuLimit == newSpec.cpuLimit &&
  oldSpec.memoryRequest == newSpec.memoryRequest &&
  oldSpec.memoryLimit == newSpec.memoryLimit &&
  oldSpec.status == newSpec.status

/-- Embeds the naming block of UpdateOrReport (pkg/reporter/reporter.go): the
workload name, a type suffix for StatefulSet/DaemonSet, and for multi-container
workloads a numeric suffix derived from the container's position (index + 1). -/
def deriveRecordName (workloadName workloadType : String)
    (containerIndex totalContainers : ℕ) : String :=
  let baseName := workloadName ++
    (if workloadType == "StatefulSet" then "-sts"
     else if workloadType == "DaemonSet" then "-ds"
     else "")
  if totalContainers > 1 then baseName ++ "-" ++ toString (containerIndex + 1)
  else baseName

/-- State-transition model of UpdateOrReport against the stored record for the
derived name: given the stored spec (none when the record does not exist) and
the newly computed spec, return (changed flag, new stored spec, writes
performed). A materially equal record is left untouched and reported
unchanged; otherwise the record is written (update or create). -/
def updateOrReport (store : Option SpecFields) (newSpec : SpecFields) :
    Bool × Option SpecFields × ℕ :=
  match store with
  | some existingSpec =>
    if isSpecEqual existingSpec newSpec then (false, some existingSpec, 0)
    else (true, some newSpec, 1)
  | none => (true, some newSpec, 1)

/-! Arithmetic facts about the rounding helpers. The in-range hypotheses are
exactly the values at which none of the wrapping int64 operations overflow:
9223372036850999999 nanocores for roundNano and 9223372036852678655 bytes for
roundBytes are the largest inputs whose rounded results still fit in int64. -/

theorem wrap64_id {x : ℤ} (h1 : -9223372036854775808 ≤ x)
    (h2 : x ≤ 9223372036854775807) : wrap64 x = x := by
  unfold wrap64
  have h63 : (2 : ℤ) ^ 63 = 9223372036854775808 := by norm_num
  have h64 : (2 : ℤ) ^ 64 = 18446744073709551616 := by norm_num
  rw [h63, h64]
  omega

theorem roundUp5_bounds (v : ℤ) (hv : 0 ≤ v) (hb : v ≤ 9223372036854775803) :
    v ≤ roundUp5 v ∧ roundUp5 v ≤ v + 4 ∧ roundUp5 v % 5 = 0 := by
  unfold roundUp5
  by_cases h : v = 0
  · simp [h]
  · rw [if_neg h]
    have hw1 : wrap64 (v + 4) = v + 4 := wrap64_id (by omega) (by omega)
    rw [hw1, Int.tdiv_eq_ediv (by omega) (by omega)]
    have hw2 : wrap64 ((v + 4) / 5 * 5) = (v + 4) / 5 * 5 :=
      wrap64_id (by omega) (by omega)
    rw [hw2]
    omega

theorem roundNano_facts (n : ℤ) (hn : 0 ≤ n) (hb : n ≤ 9223372036850999999) :
    1000000 * (n / 1000000) ≤ roundNano n ∧ n - 1000000 < roundNano n ∧
    roundNano n ≤ n + 4000000 ∧ roundNano n % 5000000 = 0 := by
  unfold roundNano
  rw [Int.tdiv_eq_ediv hn (by omega)]
  have h0 : 0 ≤ n / 1000000 := Int.ediv_nonneg hn (by omega)
  have h1 : n / 1000000 ≤ 9223372036850 := by omega
  have h := roundUp5_bounds (n / 1000000) h0 (by omega)
  have hw : wrap64 (roundUp5 (n / 1000000) * 1000000) =
      roundUp5 (n / 1000000) * 1000000 := wrap64_id (by omega) (by omega)
  rw [hw]
  omega

theorem roundBytes_facts (n : ℤ) (hn : 0 ≤ n) (hb : n ≤ 9223372036852678655) :
    1048576 * (n / 1048576) ≤ roundBytes n ∧ n - 1048576 < roundBytes n ∧
    roundBytes n ≤ n + 4194304 ∧ roundBytes n % 5242880 = 0 := by
  unfold roundBytes
  have h1024 : (1024 * 1024 : ℤ) = 1048576 := by norm_num
  rw [h1024, Int.tdiv_eq_ediv hn (by omega)]
  have h0 : 0 ≤ n / 1048576 := Int.ediv_nonneg hn (by omega)
  have h1 : n / 1048576 ≤ 8796093022205 := by omega
  have h := roundUp5_bounds (n / 1048576) h0 (by omega)
  have hw : wrap64 (roundUp5 (n / 1048576) * 1024 * 1024) =
      roundUp5 (n / 1048576) * 1024 * 1024 := wrap64_id (by omega) (by omega)
  rw [hw]
  omega

theorem roundNano_least (n : ℤ) (hn : 0 ≤ n) (hb : n ≤ 9223372036850999999) :
    roundNano n % 5000000 = 0 ∧
    1000000 * (n.tdiv 1000000) ≤ roundNano n ∧
    ∀ k : ℤ, k % 5000000 = 0 → 1000000 * (n.tdiv 1000000) ≤ k → roundNano n ≤ k := by
  have h0 : 0 ≤ n / 1000000 := Int.ediv_nonneg hn (by omega)
  have h1 : n / 1000000 ≤ 9223372036850 := by omega
  unfold roundNano roundUp5
  rw [Int.tdiv_eq_ediv hn (by omega)]
  split_ifs with h
  · have hw : wrap64 (0 * 1000000) = 0 := by decide
    rw [hw]
    exact ⟨by omega, by omega, fun k hk1 hk2 => by omega⟩
  · have hw1 : wrap64 (n / 1000000 + 4) = n / 1000000 + 4 :=
      wrap64_id (by omega) (by omega)
    rw [hw1, Int.tdiv_eq_ediv (by omega : (0 : ℤ) ≤ n / 1000000 + 4) (by omega)]
    have hw2 : wrap64 ((n / 1000000 + 4) / 5 * 5) = (n / 1000000 + 4) / 5 * 5 :=
      wrap64_id (by omega) (by omega)
    rw [hw2]
    have hw3 : wrap64 ((n / 1000000 + 4) / 5 * 5 * 1000000) =
        (n / 1000000 + 4) / 5 * 5 * 1000000 := wrap64_id (by omega) (by omega)
    rw [hw3]
    exact ⟨by omega, by omega, fun k hk1 hk2 => by omega⟩

theorem roundBytes_least (n : ℤ) (hn : 0 ≤ n) (hb : n ≤ 9223372036852678655) :
    roundBytes n % 5242880 = 0 ∧
    1048576 * (n.tdiv 1048576) ≤ roundBytes n ∧
    ∀ k : ℤ, k % 5242880 = 0 → 1048576 * (n.tdiv 1048576) ≤ k → roundBytes n ≤ k := by
  have h0 : 0 ≤ n / 1048576 := Int.ediv_nonneg hn (by omega)
  have h1 : n / 1048576 ≤ 8796093022205 := by omega
  unfold roundBytes roundUp5
  have h1024 : (1024 * 1024 : ℤ) = 1048576 := by norm_num
  rw [h1024, Int.tdiv_eq_ediv hn (by omega)]
  split_ifs with h
  · have hw : wrap64 (0 * 1024 * 1024) = 0 := by decide
    rw [hw]
    exact ⟨by omega, by omega, fun k hk1 hk2 => by omega⟩
  · have hw1 : wrap64 (n / 1048576 + 4) = n / 1048576 + 4 :=
      wrap64_id (by omega) (by omega)
    rw [hw1, Int.tdiv_eq_ediv (by omega : (0 : ℤ) ≤ n / 1048576 + 4) (by omega)]
    have hw2 : wrap64 ((n / 1048576 + 4) / 5 * 5) = (n / 1048576 + 4) / 5 * 5 :=
      wrap64_id (by omega) (by omega)
    rw [hw2]
    have hw3 : wrap64 ((n / 1048576 + 4) / 5 * 5 * 1024 * 1024) =
        (n / 1048576 + 4) / 5 * 5 * 1024 * 1024 := wrap64_id (by omega) (by omega)
    rw [hw3]
    exact ⟨by omega, by omega, fun k hk1 hk2 => by omega⟩

theorem truncQ_intCast (n : ℤ) : truncQ ((n : ℤ) : ℚ) = n := by
  unfold truncQ
  simp

theorem int64OfFloat_intCast (n : ℤ) :
    int64OfFloat ((n : ℤ) : ℚ) =
      if n < int64Min ∨ int64Max < n then int64Min else n := by
  unfold int64OfFloat
  rw [truncQ_intCast]

theorem int64OfFloat_eq (q : ℚ) (h0 : 0 ≤ truncQ q) (hb : truncQ q ≤ int64Max) :
    int64OfFloat q = truncQ q := by
  have hmin : int64Min < 0 := by decide
  unfold int64OfFloat
  rw [if_neg (by simp only [not_or, not_lt]; exact ⟨by omega, hb⟩)]

theorem truncQ_eq_floor (q : ℚ) (hq : 0 ≤ q) : truncQ q = ⌊q⌋ := by
  unfold truncQ
  rw [Rat.floor_def]
  exact Int.tdiv_eq_ediv (by exact_mod_cast Rat.num_nonneg.mpr hq) (by positivity)

theorem recommendedCpuNano_ge (usage : ℚ) :
    (30000000 : ℚ) ≤ recommendedCpuNano usage := by
  unfold recommendedCpuNano
  dsimp only
  split_ifs with h
  · norm_num
  · push_neg at h
    calc (30000000 : ℚ) = 30 * 1000000 := by norm_num
    _ ≤ usage * (6 / 5) := h

theorem recommendedMemBytes_ge (usage : ℚ) :
    (52428800 : ℚ) ≤ recommendedMemBytes usage := by
  unfold recommendedMemBytes
  dsimp only
  split_ifs with h
  · norm_num
  · push_neg at h
    calc (52428800 : ℚ) = 50 * 1024 * 1024 := by norm_num
    _ ≤ usage * (6 / 5) := h

theorem truncQ_recommendedCpu_ge (usage : ℚ) :
    30000000 ≤ truncQ (recommendedCpuNano usage) := by
  have h := recommendedCpuNano_ge usage
  rw [truncQ_eq_floor _ (by linarith)]
  exact Int.le_floor.mpr (by exact_mod_cast h)

theorem truncQ_recommendedMem_ge (usage : ℚ) :
    52428800 ≤ truncQ (recommendedMemBytes usage) := by
  have h := recommendedMemBytes_ge usage
  rw [truncQ_eq_floor _ (by linarith)]
  exact Int.le_floor.mpr (by exact_mod_cast h)

theorem targetCpuReqNano_ge (usage : ℚ)
    (hb : truncQ (recommendedCpuNano usage) ≤ 9223372036850999999) :
    30000000 ≤ targetCpuReqNano usage := by
  have h := truncQ_recommendedCpu_ge usage
  have hmax : (9223372036850999999 : ℤ) ≤ int64Max := by decide
  unfold targetCpuReqNano
  rw [int64OfFloat_eq _ (by omega) (by omega)]
  have hf := roundNano_facts (truncQ (recommendedCpuNano usage)) (by omega) hb
  omega

theorem targetMemReqBytes_ge (usage : ℚ)
    (hb : truncQ (recommendedMemBytes usage) ≤ 9223372036852678655) :
    52428800 ≤ targetMemReqBytes usage := by
  have h := truncQ_recommendedMem_ge usage
  have hmax : (9223372036852678655 : ℤ) ≤ int64Max := by decide
  unfold targetMemReqBytes
  rw [int64OfFloat_eq _ (by omega) (by omega)]
  have hf := roundBytes_facts (truncQ (recommendedMemBytes usage)) (by omega) hb
  omega

/-- Shared tolerance argument: if tl lies within (floor Q - u, floor Q + 4u]
for Q = T * (L / R) with T, L nonnegative and R positive, then tl * R is within
(5u + 1) * R of L * T. -/
theorem ratioTolAux (T L R tl u : ℤ) (hu : 0 < u) (hR : 0 < R)
    (h1 : ⌊(T : ℚ) * ((L : ℚ) / (R : ℚ))⌋ - u < tl)
    (h2 : tl ≤ ⌊(T : ℚ) * ((L : ℚ) / (R : ℚ))⌋ + 4 * u) :
    |(tl : ℚ) * (R : ℚ) - (L : ℚ) * (T : ℚ)| < ((5 * u + 1 : ℤ) : ℚ) * (R : ℚ) := by
  set Q : ℚ := (T : ℚ) * ((L : ℚ) / (R : ℚ)) with hQ
  have hR0 : (0 : ℚ) < (R : ℚ) := by exact_mod_cast hR
  have hQR : Q * (R : ℚ) = (T : ℚ) * (L : ℚ) := by
    rw [hQ]; field_simp
  have hfl : (⌊Q⌋ : ℚ) ≤ Q := Int.floor_le Q
  have hfl2 : Q - 1 < (⌊Q⌋ : ℚ) := Int.sub_one_lt_floor Q
  have htl1 : Q - (u : ℚ) - 1 < (tl : ℚ) := by
    have : ((⌊Q⌋ - u : ℤ) : ℚ) < (tl : ℚ) := by exact_mod_cast h1
    push_cast at this
    linarith
  have htl2 : (tl : ℚ) ≤ Q + 4 * (u : ℚ) := by
    have : (tl : ℚ) ≤ ((⌊Q⌋ + 4 * u : ℤ) : ℚ) := by exact_mod_cast h2
    push_cast at this
    linarith
  have hu0 : (0 : ℚ) < (u : ℚ) := by exact_mod_cast hu
  have habs : |(tl : ℚ) - Q| < 5 * (u : ℚ) + 1 := by
    rw [abs_lt]
    constructor <;> linarith
  have hkey : (tl : ℚ) * (R : ℚ) - (L : ℚ) * (T : ℚ) = ((tl : ℚ) - Q) * (R : ℚ) := by
    rw [sub_mul, hQR]; ring
  rw [hkey, abs_mul, abs_of_pos hR0]
  push_cast
  have := mul_lt_mul_of_pos_right habs hR0
  linarith

/-- The classification block equals the priority rule stated by the spec. -/
theorem statusOf_spec (tCpu cCpu tMem cMem : ℤ) :
    statusOf tCpu cCpu tMem cMem =
      if tCpu > cCpu ∨ tMem > cMem then "Underprovisioned"
      else if tCpu < cCpu ∨ tMem < cMem then "Overprovisioned"
      else "Optimal" := by
  unfold statusOf
  dsimp only
  split_ifs <;> simp_all

/-- The tolerance bound for the CPU limit computation: applying the previous
limit:request ratio to the target request and re-rounding stays within one
coarse CPU unit (5 milli-cores, plus the 1-nanocore truncation) per unit of
current request. -/
theorem limitTolCpu (T L R : ℤ) (hT : 0 ≤ T) (hreq : 0 < R) (hnn : 0 ≤ L)
    (hb : truncQ ((T : ℚ) * ((L : ℚ) / (R : ℚ))) ≤ 9223372036850999999) :
    |((roundNano (int64OfFloat ((T : ℚ) * ((L : ℚ) / (R : ℚ))))) : ℚ) * (R : ℚ) -
      (L : ℚ) * (T : ℚ)| < 5000001 * (R : ℚ) := by
  have hQ0 : (0 : ℚ) ≤ (T : ℚ) * ((L : ℚ) / (R : ℚ)) := by
    apply mul_nonneg (by exact_mod_cast hT)
    exact div_nonneg (by exact_mod_cast hnn) (by exact_mod_cast hreq.le)
  have htr := truncQ_eq_floor _ hQ0
  have hfl0 : (0 : ℤ) ≤ ⌊(T : ℚ) * ((L : ℚ) / (R : ℚ))⌋ := Int.floor_nonneg.mpr hQ0
  have hmax : (9223372036850999999 : ℤ) ≤ int64Max := by decide
  rw [int64OfFloat_eq _ (by rw [htr]; exact hfl0) (by omega), htr]
  have hbf : ⌊(T : ℚ) * ((L : ℚ) / (R : ℚ))⌋ ≤ 9223372036850999999 := by
    rw [← htr]
    exact hb
  have hfacts := roundNano_facts (⌊(T : ℚ) * ((L : ℚ) / (R : ℚ))⌋) hfl0 hbf
  have h := ratioTolAux T L R (roundNano ⌊(T : ℚ) * ((L : ℚ) / (R : ℚ))⌋) 1000000
    (by norm_num) hreq (by omega) (by omega)
  have hc : (((5 * 1000000 + 1 : ℤ)) : ℚ) = 5000001 := by norm_num
  rwa [hc] at h

/-- The analogous tolerance bound for the memory limit (one coarse unit of
5 Mi, plus the 1-byte truncation, per unit of current request). -/
theorem limitTolMem (T L R : ℤ) (hT : 0 ≤ T) (hreq : 0 < R) (hnn : 0 ≤ L)
    (hb : truncQ ((T : ℚ) * ((L : ℚ) / (R : ℚ))) ≤ 9223372036852678655) :
    |((roundBytes (int64OfFloat ((T : ℚ) * ((L : ℚ) / (R : ℚ))))) : ℚ) * (R : ℚ) -
      (L : ℚ) * (T : ℚ)| < 5242881 * (R : ℚ) := by
  have hQ0 : (0 : ℚ) ≤ (T : ℚ) * ((L : ℚ) / (R : ℚ)) := by
    apply mul_nonneg (by exact_mod_cast hT)
    exact div_nonneg (by exact_mod_cast hnn) (by exact_mod_cast hreq.le)
  have htr := truncQ_eq_floor _ hQ0
  have hfl0 : (0 : ℤ) ≤ ⌊(T : ℚ) * ((L : ℚ) / (R : ℚ))⌋ := Int.floor_nonneg.mpr hQ0
  have hmax : (9223372036852678655 : ℤ) ≤ int64Max := by decide
  rw [int64OfFloat_eq _ (by rw [htr]; exact hfl0) (by omega), htr]
  have hbf : ⌊(T : ℚ) * ((L : ℚ) / (R : ℚ))⌋ ≤ 9223372036852678655 := by
    rw [← htr]
    exact hb
  have hfacts := roundBytes_facts (⌊(T : ℚ) * ((L : ℚ) / (R : ℚ))⌋) hfl0 hbf
  have h := ratioTolAux T L R (roundBytes ⌊(T : ℚ) * ((L : ℚ) / (R : ℚ))⌋) 1048576
    (by norm_num) hreq (by omega) (by omega)
  have hc : (((5 * 1048576 + 1 : ℤ)) : ℚ) = 5242881 := by norm_num
  rwa [hc] at h

/-- Claim C2 counterexample: at observed usage 9e18 nanocores (a value an
int64 usage average can carry), the buffered value 1.08e19 exceeds the int64
range, the float-to-int conversion yields the sentinel, and the published
target CPU request is a large negative number — far below the 30m floor the
claim asserts for all usage inputs. -/
theorem c2_counterexample :
    targetCpuReqNano 9000000000000000000 = -9223372036850000000 ∧
    ¬ 30000000 ≤ targetCpuReqNano 9000000000000000000 := by
  have h1 : recommendedCpuNano 9000000000000000000 =
      ((10800000000000000000 : ℤ) : ℚ) := by
    unfold recommendedCpuNano
    push_cast
    norm_num
  have h2 : targetCpuReqNano 9000000000000000000 = -9223372036850000000 := by
    unfold targetCpuReqNano
    rw [h1, int64OfFloat_intCast]
    decide
  exact ⟨h2, by rw [h2]; decide⟩

/-- Claim C2 as amended: for every usage whose buffered-and-floored value
truncates to at most 9223372036850999999 nanocores (CPU), respectively
9223372036852678655 bytes (memory) — the exact range in which the program's
int64 conversion and rounding arithmetic cannot overflow, which covers every
physically meaningful magnitude — the computed target requests satisfy the
30m and 50Mi floors. Beyond that range the conversion overflows and the
published target can be negative, as the counterexample shows. -/
theorem c2_floor_invariant (usageCpu usageMem : ℚ)
    (hc : truncQ (recommendedCpuNano usageCpu) ≤ 9223372036850999999)
    (hm : truncQ (recommendedMemBytes usageMem) ≤ 9223372036852678655) :
    30000000 ≤ targetCpuReqNano usageCpu ∧ 52428800 ≤ targetMemReqBytes usageMem :=
  ⟨targetCpuReqNano_ge usageCpu hc, targetMemReqBytes_ge usageMem hm⟩

/-- Witness for claim C2 at zero usage: the buffered values are exactly the
floors, well inside the int64 range, and the targets meet the floors. -/
theorem c2_witness :
    30000000 ≤ targetCpuReqNano 0 ∧ 52428800 ≤ targetMemReqBytes 0 := by
  have h1 : recommendedCpuNano 0 = ((30000000 : ℤ) : ℚ) := by
    unfold recommendedCpuNano
    push_cast
    norm_num
  have h2 : recommendedMemBytes 0 = ((52428800 : ℤ) : ℚ) := by
    unfold recommendedMemBytes
    push_cast
    norm_num
  exact c2_floor_invariant 0 0 (by rw [h1, truncQ_intCast]; decide)
    (by rw [h2, truncQ_intCast]; decide)

/-- Claim C3: the calculator returns Underprovisioned exactly when a target
request exceeds the corresponding current request on either dimension (taking
priority, so mixed increase/decrease is Underprovisioned), else Overprovisioned
when a target request is strictly below its current request, else Optimal. -/
theorem c3_classification (wn wt cn : String) (idx tot : ℕ) (pc : ℤ)
    (uc um : ℚ) (c : ContainerSpec) (src : String) :
    (makeSuggestion wn wt cn idx tot pc uc um c src).status =
      if targetCpuReqNano uc > currentCpuReqNano c ∨
         targetMemReqBytes um > currentMemReqBytes c then "Underprovisioned"
      else if targetCpuReqNano uc < currentCpuReqNano c ∨
              targetMemReqBytes um < currentMemReqBytes c then "Overprovisioned"
      else "Optimal" := by
  show statusOf _ _ _ _ = _
  exact statusOf_spec _ _ _ _

/-- Container for the C4 counterexample: a current request of 1 nanocore and
a declared CPU limit of 9223372036854775807 nanocores (the int64 maximum),
giving a limit:request ratio of about 9.2e18. -/
def c4xCont : ContainerSpec :=
  { name := "main"
    requests := some { cpu := some "1n", memory := some "52428800" }
    limits := some { cpu := some "9223372036854775807n", memory := none } }

/-- Claim C4 counterexample: for this container (declared CPU limit, nonzero
current request) at zero usage, the program's int64 conversion of
targetRequest * ratio overflows to the sentinel and the published target
limit is a large negative number; the ratio is not preserved within any
rounding tolerance — the claimed one-coarse-unit bound fails. -/
theorem c4_counterexample :
    hasCpuLimit c4xCont = true ∧
    currentCpuReqNano c4xCont = 1 ∧
    currentCpuLimNano c4xCont = 9223372036854775807 ∧
    targetCpuLimNano c4xCont 0 = -9223372036850000000 ∧
    ¬ (|(targetCpuLimNano c4xCont 0 : ℚ) * (currentCpuReqNano c4xCont : ℚ) -
        (currentCpuLimNano c4xCont : ℚ) * (targetCpuReqNano 0 : ℚ)| <
       5000001 * (currentCpuReqNano c4xCont : ℚ)) := by
  have hT : targetCpuReqNano 0 = 30000000 := by
    have h1 : recommendedCpuNano 0 = ((30000000 : ℤ) : ℚ) := by
      unfold recommendedCpuNano
      push_cast
      norm_num
    unfold targetCpuReqNano
    rw [h1, int64OfFloat_intCast]
    decide
  have hL : currentCpuLimNano c4xCont = 9223372036854775807 := by decide
  have hR : currentCpuReqNano c4xCont = 1 := by decide
  have htl : targetCpuLimNano c4xCont 0 = -9223372036850000000 := by
    unfold targetCpuLimNano
    rw [if_pos (by decide :
      (hasCpuLimit c4xCont && decide (0 < currentCpuReqNano c4xCont)) = true)]
    have hQ : ((targetCpuReqNano 0 : ℤ) : ℚ) *
        ((currentCpuLimNano c4xCont : ℚ) / (currentCpuReqNano c4xCont : ℚ)) =
        ((276701161105643274210000000 : ℤ) : ℚ) := by
      rw [hT, hL, hR]
      push_cast
      norm_num
    rw [hQ, int64OfFloat_intCast]
    decide
  refine ⟨by decide, hR, hL, htl, ?_⟩
  rw [htl, hL, hR, hT]
  push_cast
  rw [abs_sub_lt_iff]
  norm_num

/-- Claim C4 as amended: when a limit was declared and the current request is
positive, the target limit is the previous limit:request ratio applied to the
new target request, converted to int64 and coarsely rounded; whenever both
the buffered target request and that ratio product lie in the overflow-free
int64 range (all realistic magnitudes), target limit over target request
matches the previous ratio within one coarse rounding unit — outside that
range the int64 conversion overflows, as the counterexample shows. With no
declared limit the target limit equals the target request. -/
theorem c4_ratio_preservation (c : ContainerSpec) (usage : ℚ) :
    (hasCpuLimit c = true → 0 < currentCpuReqNano c → 0 ≤ currentCpuLimNano c →
      targetCpuLimNano c usage =
        roundNano (int64OfFloat ((targetCpuReqNano usage : ℚ) *
          ((currentCpuLimNano c : ℚ) / (currentCpuReqNano c : ℚ)))) ∧
      (truncQ (recommendedCpuNano usage) ≤ 9223372036850999999 →
       truncQ ((targetCpuReqNano usage : ℚ) *
         ((currentCpuLimNano c : ℚ) / (currentCpuReqNano c : ℚ))) ≤ 9223372036850999999 →
       |(targetCpuLimNano c usage : ℚ) * (currentCpuReqNano c : ℚ) -
         (currentCpuLimNano c : ℚ) * (targetCpuReqNano usage : ℚ)| <
         5000001 * (currentCpuReqNano c : ℚ))) ∧
    (hasCpuLimit c = false → targetCpuLimNano c usage = targetCpuReqNano usage) ∧
    (hasMemLimit c = true → 0 < currentMemReqBytes c → 0 ≤ currentMemLimBytes c →
      targetMemLimBytes c usage =
        roundBytes (int64OfFloat ((targetMemReqBytes usage : ℚ) *
          ((currentMemLimBytes c : ℚ) / (currentMemReqBytes c : ℚ)))) ∧
      (truncQ (recommendedMemBytes usage) ≤ 9223372036852678655 →
       truncQ ((targetMemReqBytes usage : ℚ) *
         ((currentMemLimBytes c : ℚ) / (currentMemReqBytes c : ℚ))) ≤ 9223372036852678655 →
       |(targetMemLimBytes c usage : ℚ) * (currentMemReqBytes c : ℚ) -
         (currentMemLimBytes c : ℚ) * (targetMemReqBytes usage : ℚ)| <
         5242881 * (currentMemReqBytes c : ℚ))) ∧
    (hasMemLimit c = false → targetMemLimBytes c usage = targetMemReqBytes usage) := by
  refine ⟨?_, ?_, ?_, ?_⟩
  · intro hlim hreq hnn
    have heq : targetCpuLimNano c usage =
        roundNano (int64OfFloat ((targetCpuReqNano usage : ℚ) *
          ((currentCpuLimNano c : ℚ) / (currentCpuReqNano c : ℚ)))) := by
      unfold targetCpuLimNano
      simp [hlim, hreq]
    refine ⟨heq, ?_⟩
    intro hbr hbl
    rw [heq]
    exact limitTolCpu (targetCpuReqNano usage) (currentCpuLimNano c)
      (currentCpuReqNano c)
      (le_trans (by norm_num) (targetCpuReqNano_ge usage hbr)) hreq hnn hbl
  · intro hlim
    unfold targetCpuLimNano
    simp [hlim]
  · intro hlim hreq hnn
    have heq : targetMemLimBytes c usage =
        roundBytes (int64OfFloat ((targetMemReqBytes usage : ℚ) *
          ((currentMemLimBytes c : ℚ) / (currentMemReqBytes c : ℚ)))) := by
      unfold targetMemLimBytes
      simp [hlim, hreq]
    refine ⟨heq, ?_⟩
    intro hbr hbl
    rw [heq]
    exact limitTolMem (targetMemReqBytes usage) (currentMemLimBytes c)
      (currentMemReqBytes c)
      (le_trans (by norm_num) (targetMemReqBytes_ge usage hbr)) hreq hnn hbl
  · intro hlim
    unfold targetMemLimBytes
    simp [hlim]

/-- The container of the spec section 8 scenario: requests 100m / 512Mi and
limits 200m / 512Mi (ratio 2.0 on CPU, 1.0 on memory). -/
def cSample : ContainerSpec :=
  { name := "main"
    requests := some { cpu := some "100m", memory := some "512Mi" }
    limits := some { cpu := some "200m", memory := some "512Mi" } }

/-- Witness for claim C4, at the spec's own scenario (usage 20m / 100Mi): the
ratio branch applies with all values inside the overflow-free range and the
tolerance bound holds. -/
theorem c4_witness :
    (targetCpuLimNano cSample 20000000 =
      roundNano (int64OfFloat ((targetCpuReqNano 20000000 : ℚ) *
        ((currentCpuLimNano cSample : ℚ) / (currentCpuReqNano cSample : ℚ)))) ∧
     |(targetCpuLimNano cSample 20000000 : ℚ) * (currentCpuReqNano cSample : ℚ) -
       (currentCpuLimNano cSample : ℚ) * (targetCpuReqNano 20000000 : ℚ)| <
       5000001 * (currentCpuReqNano cSample : ℚ)) ∧
    (targetMemLimBytes cSample 104857600 =
      roundBytes (int64OfFloat ((targetMemReqBytes 104857600 : ℚ) *
        ((currentMemLimBytes cSample : ℚ) / (currentMemReqBytes cSample : ℚ)))) ∧
     |(targetMemLimBytes cSample 104857600 : ℚ) * (currentMemReqBytes cSample : ℚ) -
       (currentMemLimBytes cSample : ℚ) * (targetMemReqBytes 104857600 : ℚ)| <
       5242881 * (currentMemReqBytes cSample : ℚ)) := by
  have hrecc : recommendedCpuNano 20000000 = ((30000000 : ℤ) : ℚ) := by
    unfold recommendedCpuNano
    push_cast
    norm_num
  have hrc : truncQ (recommendedCpuNano 20000000) ≤ 9223372036850999999 := by
    rw [hrecc, truncQ_intCast]
    decide
  have hT : targetCpuReqNano 20000000 = 30000000 := by
    unfold targetCpuReqNano
    rw [hrecc, int64OfFloat_intCast]
    decide
  have hQc : truncQ ((targetCpuReqNano 20000000 : ℚ) *
      ((currentCpuLimNano cSample : ℚ) / (currentCpuReqNano cSample : ℚ))) ≤
      9223372036850999999 := by
    have hL : currentCpuLimNano cSample = 200000000 := by decide
    have hR : currentCpuReqNano cSample = 100000000 := by decide
    have hq : ((targetCpuReqNano 20000000 : ℤ) : ℚ) *
        ((currentCpuLimNano cSample : ℚ) / (currentCpuReqNano cSample : ℚ)) =
        ((60000000 : ℤ) : ℚ) := by
      rw [hT, hL, hR]
      push_cast
      norm_num
    rw [hq, truncQ_intCast]
    decide
  have hrecm : recommendedMemBytes 104857600 = ((125829120 : ℤ) : ℚ) := by
    unfold recommendedMemBytes
    push_cast
    norm_num
  have hrm : truncQ (recommendedMemBytes 104857600) ≤ 9223372036852678655 := by
    rw [hrecm, truncQ_intCast]
    decide
  have hTm : targetMemReqBytes 104857600 = 125829120 := by
    unfold targetMemReqBytes
    rw [hrecm, int64OfFloat_intCast]
    decide
  have hQm : truncQ ((targetMemReqBytes 104857600 : ℚ) *
      ((currentMemLimBytes cSample : ℚ) / (currentMemReqBytes cSample : ℚ))) ≤
      9223372036852678655 := by
    have hL : currentMemLimBytes cSample = 536870912 := by decide
    have hR : currentMemReqBytes cSample = 536870912 := by decide
    have hq : ((targetMemReqBytes 104857600 : ℤ) : ℚ) *
        ((currentMemLimBytes cSample : ℚ) / (currentMemReqBytes cSample : ℚ)) =
        ((125829120 : ℤ) : ℚ) := by
      rw [hTm, hL, hR]
      push_cast
      norm_num
    rw [hq, truncQ_intCast]
    decide
  have hcpu := (c4_ratio_preservation cSample 20000000).1 (by decide) (by decide)
    (by decide)
  have hmem := (c4_ratio_preservation cSample 104857600).2.2.1 (by decide)
    (by decide) (by decide)
  exact ⟨⟨hcpu.1, hcpu.2 hrc hQc⟩, ⟨hmem.1, hmem.2 hrm hQm⟩⟩

/-- Claim C5 counterexample: at observed usage 25416670 nanocores the
buffered-and-floored value is 30500004 nanocores, but the published target is
30000000 nanocores (30m) — not the smallest multiple of 5 milli-cores at or
above the pre-rounding value (which would be 35m), and strictly below the
pre-rounding value. -/
theorem c5_counterexample :
    targetCpuReqNano 25416670 = 30000000 ∧
    recommendedCpuNano 25416670 = 30500004 ∧
    (targetCpuReqNano 25416670 : ℚ) < recommendedCpuNano 25416670 := by
  have h1 : recommendedCpuNano 25416670 = ((30500004 : ℤ) : ℚ) := by
    unfold recommendedCpuNano
    push_cast
    norm_num
  have h3 : targetCpuReqNano 25416670 = 30000000 := by
    unfold targetCpuReqNano
    rw [h1, int64OfFloat_intCast]
    decide
  refine ⟨h3, by rw [h1]; norm_num, ?_⟩
  rw [h3, h1]
  norm_num

/-- Claim C5 as amended: whenever the buffered-and-floored value truncates
into the overflow-free int64 range (all realistic magnitudes), the published
target request is the smallest multiple of the coarse unit (5 milli-cores,
respectively 5 Mi) at or above that value truncated down to a whole
milli-core (respectively whole Mi); it can therefore undershoot the
pre-rounding value by up to one milli-core (respectively one Mi). -/
theorem c5_amended_rounding (usageCpu usageMem : ℚ)
    (hc : truncQ (recommendedCpuNano usageCpu) ≤ 9223372036850999999)
    (hm : truncQ (recommendedMemBytes usageMem) ≤ 9223372036852678655) :
    (targetCpuReqNano usageCpu % 5000000 = 0 ∧
     1000000 * ((truncQ (recommendedCpuNano usageCpu)).tdiv 1000000) ≤
       targetCpuReqNano usageCpu ∧
     ∀ k : ℤ, k % 5000000 = 0 →
       1000000 * ((truncQ (recommendedCpuNano usageCpu)).tdiv 1000000) ≤ k →
       targetCpuReqNano usageCpu ≤ k) ∧
    (targetMemReqBytes usageMem % 5242880 = 0 ∧
     1048576 * ((truncQ (recommendedMemBytes usageMem)).tdiv 1048576) ≤
       targetMemReqBytes usageMem ∧
     ∀ k : ℤ, k % 5242880 = 0 →
       1048576 * ((truncQ (recommendedMemBytes usageMem)).tdiv 1048576) ≤ k →
       targetMemReqBytes usageMem ≤ k) := by
  constructor
  · have h := truncQ_recommendedCpu_ge usageCpu
    have hmax : (9223372036850999999 : ℤ) ≤ int64Max := by decide
    have hio : int64OfFloat (recommendedCpuNano usageCpu) =
        truncQ (recommendedCpuNano usageCpu) :=
      int64OfFloat_eq _ (by omega) (by omega)
    unfold targetCpuReqNano
    rw [hio]
    exact roundNano_least _ (by omega) hc
  · have h := truncQ_recommendedMem_ge usageMem
    have hmax : (9223372036852678655 : ℤ) ≤ int64Max := by decide
    have hio : int64OfFloat (recommendedMemBytes usageMem) =
        truncQ (recommendedMemBytes usageMem) :=
      int64OfFloat_eq _ (by omega) (by omega)
    unfold targetMemReqBytes
    rw [hio]
    exact roundBytes_least _ (by omega) hm

/-- Witness for claim C5: at the counterexample input the least-multiple
characterization places the target at 30m, exhibiting the undershoot. -/
theorem c5_witness :
    targetCpuReqNano 25416670 % 5000000 = 0 ∧ targetCpuReqNano 25416670 ≤ 30000000 := by
  have h1 : recommendedCpuNano 25416670 = ((30500004 : ℤ) : ℚ) := by
    unfold recommendedCpuNano
    push_cast
    norm_num
  have hc : truncQ (recommendedCpuNano 25416670) ≤ 9223372036850999999 := by
    rw [h1, truncQ_intCast]
    decide
  have h2 : recommendedMemBytes 0 = ((52428800 : ℤ) : ℚ) := by
    unfold recommendedMemBytes
    push_cast
    norm_num
  have hm : truncQ (recommendedMemBytes 0) ≤ 9223372036852678655 := by
    rw [h2, truncQ_intCast]
    decide
  refine ⟨(c5_amended_rounding 25416670 0 hc hm).1.1,
    (c5_amended_rounding 25416670 0 hc hm).1.2.2 30000000 (by decide) ?_⟩
  rw [h1, truncQ_intCast]
  decide

theorem isSpecEqual_refl (s : SpecFields) : isSpecEqual s s = true := by
  simp [isSpecEqual]

/-- Claim C6: when the stored record's material fields equal the newly computed
ones, the publisher performs no write and reports no change; consequently
publishing the same Recommendation twice in a row performs exactly one write
over the two calls and the second call reports unchanged. -/
theorem c6_idempotent_publish (store : Option SpecFields) (s : SpecFields) :
    (∀ old, store = some old → isSpecEqual old s = true →
      updateOrReport store s = (false, some old, 0)) ∧
    ((updateOrReport (updateOrReport store s).2.1 s).1 = false ∧
     (updateOrReport (updateOrReport store s).2.1 s).2.2 = 0) ∧
    (store = none →
      (updateOrReport store s).2.2 +
        (updateOrReport (updateOrReport store s).2.1 s).2.2 = 1) := by
  refine ⟨?_, ?_, ?_⟩
  · intro old hst heq
    subst hst
    simp [updateOrReport, heq]
  · cases store with
    | none => simp [updateOrReport, isSpecEqual_refl]
    | some old =>
      by_cases heq : isSpecEqual old s = true
      · simp [updateOrReport, heq]
      · simp only [updateOrReport, Bool.not_eq_true] at heq
        simp [updateOrReport, heq, isSpecEqual_refl]
  · intro hst
    subst hst
    simp [updateOrReport, isSpecEqual_refl]

/-- A concrete material-fields record, for the C6 witness. -/
def specSampleA : SpecFields :=
  { workloadType := "Deployment"
    containerName := "main"
    podCount := 2
    cpuRequest := "100m->30m"
    cpuLimit := "200m->60m"
    memoryRequest := "512Mi->120Mi"
    memoryLimit := "512Mi->120Mi"
    status := "Overprovisioned"
    source := "Prometheus" }

/-- Witness for claim C6: a concrete double publication from an empty store
performs one write and the second call reports no change. -/
theorem c6_witness :
    updateOrReport (some specSampleA) specSampleA = (false, some specSampleA, 0) ∧
    (updateOrReport (updateOrReport none specSampleA).2.1 specSampleA).1 = false ∧
    (updateOrReport none specSampleA).2.2 +
      (updateOrReport (updateOrReport none specSampleA).2.1 specSampleA).2.2 = 1 :=
  ⟨(c6_idempotent_publish (some specSampleA) specSampleA).1 specSampleA rfl (by decide),
   (c6_idempotent_publish none specSampleA).2.1.1,
   (c6_idempotent_publish none specSampleA).2.2 rfl⟩

/-- Claim C7 counterexample: a workload app (Deployment, two containers) whose
container list is reordered between two passes. The same container identity
sits at index 0 in the first pass and at index 1 in the second, yet the
publisher derives app-1 in the first pass and app-2 in the second: the record
name follows the position, not the container identity. -/
theorem c7_counterexample :
    deriveRecordName "app" "Deployment" 0 2 = "app-1" ∧
    deriveRecordName "app" "Deployment" 1 2 = "app-2" ∧
    deriveRecordName "app" "Deployment" 0 2 ≠ deriveRecordName "app" "Deployment" 1 2 := by
  refine ⟨?_, ?_, ?_⟩ <;> decide

/-- Claim C7 as amended: the derived record name is determined by the container
position (index), not the container identity, so it is unique per (workload,
container index) — shown here for indices below 9 — and stable across passes
only when each container keeps its position; reordering reassigns names. -/
theorem c7_amended_naming (w t : String) (i j n : ℕ)
    (hn : n > 1) (hi : i < 9) (hj : j < 9) (hij : i ≠ j) :
    deriveRecordName w t i n ≠ deriveRecordName w t j n := by
  unfold deriveRecordName
  rw [if_pos hn, if_pos hn]
  intro h
  have hd := congrArg String.data h
  simp only [String.data_append] at hd
  have h2 := List.append_cancel_left hd
  have h3 : toString (i + 1) = toString (j + 1) := String.ext h2
  have hb : ∀ a, a < 9 → ∀ b, b < 9 → a ≠ b → toString (a + 1) ≠ toString (b + 1) := by
    decide
  exact hb i hi j hj hij h3

/-- Witness for claim C7: the amended uniqueness at the counterexample's
concrete positions. -/
theorem c7_witness :
    deriveRecordName "web" "StatefulSet" 0 3 ≠ deriveRecordName "web" "StatefulSet" 2 3 :=
  c7_amended_naming "web" "StatefulSet" 0 2 3 (by decide) (by decide) (by decide) (by decide)

/-- Claim C9: the quantity normalizers are total and yield 0 on any input
outside the recognized forms — for CPU, a string with none of the n/m/u
suffixes that is not a decimal number; a string with a recognized suffix whose
magnitude fails to parse as an integer; and for memory, a string with none of
the Ki/Mi/Gi suffixes that is not an integer. -/
theorem c9_parse_totality (s : String) :
    (goHasSuffix s "n" = false → goHasSuffix s "m" = false → goHasSuffix s "u" = false →
      goParseFloat? s = none → parseCpuToNano s = 0) ∧
    (goHasSuffix s "n" = false → goHasSuffix s "m" = true →
      goParseIntRaw? (goTrimSuffix s "m") = none → parseCpuToNano s = 0) ∧
    (goHasSuffix s "Ki" = false → goHasSuffix s "Mi" = false → goHasSuffix s "Gi" = false →
      goParseIntRaw? s = none → parseMemoryToBytes s = 0) := by
  refine ⟨?_, ?_, ?_⟩
  · intro h1 h2 h3 h4
    unfold parseCpuToNano
    simp [h1, h2, h3, h4]
  · intro h1 h2 h3
    unfold parseCpuToNano
    simp only [h1, h2, Bool.false_eq_true, if_false, if_true]
    unfold goParseInt64
    rw [h3]
    decide
  · intro h1 h2 h3 h4
    unfold parseMemoryToBytes
    simp [h1, h2, h3, h4]

/-- Witness for claim C9: concrete malformed magnitudes normalize to zero. -/
theorem c9_witness :
    parseCpuToNano "garbage" = 0 ∧ parseCpuToNano "12.5m" = 0 ∧
    parseMemoryToBytes "lots" = 0 :=
  ⟨(c9_parse_totality "garbage").1 (by decide) (by decide) (by decide) (by decide),
   (c9_parse_totality "12.5m").2.1 (by decide) (by decide) (by decide),
   (c9_parse_totality "lots").2.2 (by decide) (by decide) (by decide) (by decide)⟩

/-! Guard and provenance facts about the adapter paths. -/

theorem prom_unreachable_none (env : PromEnv) (w : Workload)
    (h : env.reachable = false) :
    generatePrometheusSuggestions env w = none := by
  unfold generatePrometheusSuggestions
  simp [h]

/-- Every suggestion emitted by the Prometheus path carries the Prometheus
provenance and comes from a container whose CPU and memory queries both
returned data (containers with a failed or empty query are skipped). -/
theorem prom_mem (env : PromEnv) (w : Workload) (rs : List SuggestionResult)
    (r : SuggestionResult) (hgen : generatePrometheusSuggestions env w = some rs)
    (hr : r ∈ rs) :
    r.source = "Prometheus" ∧
    (env.queryCpu r.containerName).isSome ∧ (env.queryMem r.containerName).isSome := by
  unfold generatePrometheusSuggestions at hgen
  split at hgen
  · exact absurd hgen (by simp)
  split at hgen
  · exact absurd hgen (by simp)
  split at hgen
  · exact absurd hgen (by simp)
  split at hgen
  · exact absurd hgen (by simp)
  split at hgen
  · exact absurd hgen (by simp)
  split at hgen
  · exact absurd hgen (by simp)
  dsimp only at hgen
  split at hgen
  · exact absurd hgen (by simp)
  injection hgen with hgen
  subst hgen
  obtain ⟨⟨idx, c⟩, hmem, hf⟩ := List.mem_filterMap.mp hr
  dsimp only at hf
  split at hf
  · exact absurd hf (by simp)
  next v1 heq1 =>
    split at hf
    · exact absurd hf (by simp)
    next v2 heq2 =>
      injection hf with hf
      subst hf
      refine ⟨rfl, ?_, ?_⟩
      · show (env.queryCpu c.name).isSome
        simp [heq1]
      · show (env.queryMem c.name).isSome
        simp [heq2]

/-- The metrics-server path yields nothing when the metrics list is empty. -/
theorem ms_empty_none (env : MSEnv) (w : Workload) (h : env.metricsResult = some []) :
    generateMetricsServerSuggestions env w = none := by
  unfold generateMetricsServerSuggestions
  rw [h]
  split
  · rfl
  · simp

/-- When the metrics-server path emits suggestions, the fetched metrics list —
the divisor of the per-container usage averaging — is nonempty. -/
theorem ms_some_pos (env : MSEnv) (w : Workload) (rs : List SuggestionResult)
    (hgen : generateMetricsServerSuggestions env w = some rs) :
    ∃ items, env.metricsResult = some items ∧ 0 < (items.length : ℤ) := by
  unfold generateMetricsServerSuggestions at hgen
  split at hgen
  · exact absurd hgen (by simp)
  split at hgen
  · exact absurd hgen (by simp)
  split at hgen
  · exact absurd hgen (by simp)
  next items heq =>
    split at hgen
    · exact absurd hgen (by simp)
    next hne =>
      refine ⟨items, heq, ?_⟩
      have : items ≠ [] := by
        intro hnil
        exact hne (by simp [hnil])
      have := List.length_pos.mpr this
      exact_mod_cast this

/-- Every suggestion emitted by the metrics-server path carries the
MetricServer provenance. -/
theorem ms_mem_source (env : MSEnv) (w : Workload) (rs : List SuggestionResult)
    (r : SuggestionResult) (hgen : generateMetricsServerSuggestions env w = some rs)
    (hr : r ∈ rs) : r.source = "MetricServer" := by
  unfold generateMetricsServerSuggestions at hgen
  split at hgen
  · exact absurd hgen (by simp)
  split at hgen
  · exact absurd hgen (by simp)
  split at hgen
  · exact absurd hgen (by simp)
  split at hgen
  · exact absurd hgen (by simp)
  split at hgen
  · exact absurd hgen (by simp)
  dsimp only at hgen
  injection hgen with hgen
  subst hgen
  obtain ⟨⟨idx, c⟩, hmem, hf⟩ := List.mem_map.mp hr
  subst hf
  rfl

/-- The kubelet path yields nothing when no Running pod answered the summary
query. -/
theorem kubelet_empty_none (env : KubeletEnv) (w : Workload) (pods : List PodInfo)
    (hp : env.podsResult = some pods) (h : kubeletPodMetrics pods = []) :
    generateKubeletSuggestions env w = none := by
  unfold generateKubeletSuggestions
  rw [hp]
  split
  · rfl
  · simp [h]

/-- When the kubelet path emits suggestions, the pod-metrics map — the divisor
of the per-container usage averaging — is nonempty. -/
theorem kubelet_some_pos (env : KubeletEnv) (w : Workload) (rs : List SuggestionResult)
    (hgen : generateKubeletSuggestions env w = some rs) :
    ∃ pods, env.podsResult = some pods ∧ 0 < ((kubeletPodMetrics pods).length : ℤ) := by
  unfold generateKubeletSuggestions at hgen
  split at hgen
  · exact absurd hgen (by simp)
  split at hgen
  · exact absurd hgen (by simp)
  split at hgen
  · exact absurd hgen (by simp)
  next pods heq =>
    split at hgen
    · exact absurd hgen (by simp)
    split at hgen
    · exact absurd hgen (by simp)
    dsimp only at hgen
    split at hgen
    · exact absurd hgen (by simp)
    next hne =>
      refine ⟨pods, heq, ?_⟩
      have : kubeletPodMetrics pods ≠ [] := by
        intro hnil
        exact hne (by simp [hnil])
      have := List.length_pos.mpr this
      exact_mod_cast this

/-- Container of the C1 counterexample: requests 500m / 1Gi, no limits. -/
def c1Cont : ContainerSpec :=
  { name := "main"
    requests := some { cpu := some "500m", memory := some "1Gi" }
    limits := none }

/-- Workload of the C1 counterexample: one container named main. -/
def c1W : Workload :=
  { name := "app"
    nsName := "default"
    kind := "Deployment"
    selectorMatchLabels := some [("app", "web")]
    templateSpecFound := true
    containers := [c1Cont] }

/-- Metrics of the C1 counterexample: one pod metric whose only container
entry is named other — no usage sample matches the container main. -/
def c1Ms : MSEnv :=
  { metricsResult :=
      some [{ containers := [{ name := "other", usageCpu := some "100m",
                               usageMem := some "100Mi" }] }] }

/-- Claim C1 counterexample: in the metrics-server path, no usage sample
matches container main (first conjunct), yet the engine still emits a
Recommendation for it, computed from usage defaulted to zero — and since the
container requests 500m / 1Gi, the floor-based targets classify it
Overprovisioned: exactly the fabricated zero-usage verdict the claim rules
out. -/
theorem c1_counterexample :
    (c1Ms.metricsResult.getD []).all
      (fun pm => pm.containers.all (fun mc => mc.name != "main")) = true ∧
    generateMetricsServerSuggestions c1Ms c1W =
      some [makeSuggestion "app" "Deployment" "main" 0 1 1 ((0 : ℤ) : ℚ)
        ((0 : ℤ) : ℚ) c1Cont "MetricServer"] ∧
    (makeSuggestion "app" "Deployment" "main" 0 1 1 ((0 : ℤ) : ℚ) ((0 : ℤ) : ℚ)
        c1Cont "MetricServer").status = "Overprovisioned" := by
  refine ⟨by decide, by rfl, ?_⟩
  have hc : ((0 : ℤ) : ℚ) = (0 : ℚ) := by norm_num
  have ht1 : targetCpuReqNano ((0 : ℤ) : ℚ) = 30000000 := by
    rw [hc]
    unfold targetCpuReqNano
    have h1 : recommendedCpuNano 0 = ((30000000 : ℤ) : ℚ) := by
      unfold recommendedCpuNano
      push_cast
      norm_num
    rw [h1, int64OfFloat_intCast]
    decide
  have ht2 : targetMemReqBytes ((0 : ℤ) : ℚ) = 52428800 := by
    rw [hc]
    unfold targetMemReqBytes
    have h1 : recommendedMemBytes 0 = ((52428800 : ℤ) : ℚ) := by
      unfold recommendedMemBytes
      push_cast
      norm_num
    rw [h1, int64OfFloat_intCast]
    decide
  show statusOf (targetCpuReqNano ((0 : ℤ) : ℚ)) (currentCpuReqNano c1Cont)
      (targetMemReqBytes ((0 : ℤ) : ℚ)) (currentMemReqBytes c1Cont) = "Overprovisioned"
  rw [ht1, ht2]
  decide

/-- Claim C1 as amended: the skip-on-missing-data behavior holds on the
Prometheus path — every emitted suggestion comes from a container whose CPU
and memory queries both returned data, so a container without data yields no
record — while the metrics-server path skips only when the workload's fetched
metrics list is empty as a whole (a container with no matching samples still
receives a zero-usage, floor-based Recommendation, as the counterexample
shows). -/
theorem c1_amended_skip :
    (∀ (env : PromEnv) (w : Workload) (rs : List SuggestionResult)
        (r : SuggestionResult),
      generatePrometheusSuggestions env w = some rs → r ∈ rs →
      (env.queryCpu r.containerName).isSome ∧ (env.queryMem r.containerName).isSome) ∧
    (∀ (env : MSEnv) (w : Workload), env.metricsResult = some [] →
      generateMetricsServerSuggestions env w = none) :=
  ⟨fun env w rs r hgen hr => (prom_mem env w rs r hgen hr).2, ms_empty_none⟩

/-- Prometheus environment for the C1 witness: reachable, with data for every
container. -/
def c1Prom : PromEnv :=
  { reachable := true
    podsResult := some ["p1"]
    queryCpu := fun _ => some 1
    queryMem := fun _ => some 1000000 }

/-- Empty-metrics environment for the C1 witness. -/
def c1MsEmpty : MSEnv := { metricsResult := some [] }

/-- Witness for claim C1: at a concrete reachable Prometheus environment the
emitted suggestion's queries returned data, and the metrics-server path with
an empty metrics list emits nothing. -/
theorem c1_witness :
    ((c1Prom.queryCpu "main").isSome ∧ (c1Prom.queryMem "main").isSome) ∧
    generateMetricsServerSuggestions c1MsEmpty c1W = none :=
  ⟨c1_amended_skip.1 c1Prom c1W
      [makeSuggestion "app" "Deployment" "main" 0 1 1 ((1 : ℚ) * 1000000000)
        1000000 c1Cont "Prometheus"]
      (makeSuggestion "app" "Deployment" "main" 0 1 1 ((1 : ℚ) * 1000000000)
        1000000 c1Cont "Prometheus")
      rfl (List.mem_cons_self _ _),
   c1_amended_skip.2 c1MsEmpty c1W rfl⟩

/-- Workload for the C8 witness. -/
def c8W : Workload :=
  { name := "app"
    nsName := "default"
    kind := "Deployment"
    selectorMatchLabels := some [("app", "web")]
    templateSpecFound := true
    containers := [{ name := "main", requests := none, limits := none }] }

/-- Down Prometheus environment (health probe fails) for the C8 witness. -/
def c8PromDown : PromEnv :=
  { reachable := false
    podsResult := none
    queryCpu := fun _ => none
    queryMem := fun _ => none }

/-- Combined environment for the C8 witness. -/
def c8Env : Env :=
  { prom := c8PromDown
    ms := { metricsResult := none } }

/-- Claim C8: when the Prometheus health probe fails, the historical path
yields nothing and the engine's result is exactly the real-time
(metrics-server) result; moreover every published suggestion carries the
provenance of the adapter that produced it — MetricServer on the fallback
result, Prometheus on any historical result. -/
theorem c8_fallback_provenance (env : Env) (w : Workload)
    (h : env.prom.reachable = false) :
    generatePrometheusSuggestions env.prom w = none ∧
    generateLogic env w = generateMetricsServerSuggestions env.ms w ∧
    (∀ (rs : List SuggestionResult) (r : SuggestionResult),
      generateLogic env w = some rs → r ∈ rs → r.source = "MetricServer") ∧
    (∀ (penv : PromEnv) (w2 : Workload) (rs : List SuggestionResult)
        (r : SuggestionResult),
      generatePrometheusSuggestions penv w2 = some rs → r ∈ rs →
      r.source = "Prometheus") := by
  have hnone := prom_unreachable_none env.prom w h
  refine ⟨hnone, ?_, ?_, ?_⟩
  · unfold generateLogic
    rw [hnone]
  · intro rs r hgen hr
    unfold generateLogic at hgen
    rw [hnone] at hgen
    exact ms_mem_source env.ms w rs r hgen hr
  · intro penv w2 rs r hgen hr
    exact (prom_mem penv w2 rs r hgen hr).1

/-- Witness for claim C8: with the concrete down-probe environment the
historical path yields nothing and the engine equals the metrics-server
fallback. -/
theorem c8_witness :
    generatePrometheusSuggestions c8Env.prom c8W = none ∧
    generateLogic c8Env c8W = generateMetricsServerSuggestions c8Env.ms c8W :=
  ⟨(c8_fallback_provenance c8Env c8W rfl).1,
   (c8_fallback_provenance c8Env c8W rfl).2.1⟩

/-- Claim C10: in every adapter path the per-container usage averaging divides
by a strictly positive pod count: each adapter returns nothing whenever the
fetched metrics list (metrics-server) or the pod-metrics map (kubelet) is
empty, and whenever suggestions are emitted the corresponding divisor is
positive, so the division-by-zero branch is unreachable. -/
theorem c10_positive_divisor :
    (∀ (env : MSEnv) (w : Workload), env.metricsResult = some [] →
      generateMetricsServerSuggestions env w = none) ∧
    (∀ (env : MSEnv) (w : Workload) (rs : List SuggestionResult),
      generateMetricsServerSuggestions env w = some rs →
      ∃ items, env.metricsResult = some items ∧ 0 < (items.length : ℤ)) ∧
    (∀ (env : KubeletEnv) (w : Workload) (pods : List PodInfo),
      env.podsResult = some pods → kubeletPodMetrics pods = [] →
      generateKubeletSuggestions env w = none) ∧
    (∀ (env : KubeletEnv) (w : Workload) (rs : List SuggestionResult),
      generateKubeletSuggestions env w = some rs →
      ∃ pods, env.podsResult = some pods ∧ 0 < ((kubeletPodMetrics pods).length : ℤ)) :=
  ⟨ms_empty_none, ms_some_pos, kubelet_empty_none, kubelet_some_pos⟩

/-- Workload for the C10 witness. -/
def c10W : Workload :=
  { name := "app"
    nsName := "default"
    kind := "Deployment"
    selectorMatchLabels := some [("app", "web")]
    templateSpecFound := true
    containers := [{ name := "main", requests := none, limits := none }] }

/-- Nonempty metrics-server environment for the C10 witness. -/
def c10Ms : MSEnv :=
  { metricsResult :=
      some [{ containers := [{ name := "main", usageCpu := some "100m",
                               usageMem := some "100Mi" }] }] }

/-- Kubelet environment whose only pod is not Running (its metrics map comes
out empty) for the C10 witness. -/
def c10KubIdle : KubeletEnv :=
  { podsResult := some [{ name := "p1", phase := "Pending", metrics := none }] }

/-- Kubelet environment with one Running pod that answered, for the C10
witness. -/
def c10Kub : KubeletEnv :=
  { podsResult :=
      some [{ name := "p1", phase := "Running",
              metrics := some { containers := [("main", { cpuNano := 5, memBytes := 6 })] } }] }

/-- Witness for claim C10 at concrete environments: empty data yields nothing,
and emitted suggestions come with a positive divisor. -/
theorem c10_witness :
    generateMetricsServerSuggestions { metricsResult := some [] } c10W = none ∧
    (∃ items, c10Ms.metricsResult = some items ∧ 0 < (items.length : ℤ)) ∧
    generateKubeletSuggestions c10KubIdle c10W = none ∧
    (∃ pods, c10Kub.podsResult = some pods ∧ 0 < ((kubeletPodMetrics pods).length : ℤ)) :=
  ⟨c10_positive_divisor.1 { metricsResult := some [] } c10W rfl,
   c10_positive_divisor.2.1 c10Ms c10W _ rfl,
   c10_positive_divisor.2.2.1 c10KubIdle c10W
     [{ name := "p1", phase := "Pending", metrics := none }] rfl rfl,
   c10_positive_divisor.2.2.2 c10Kub c10W _ rfl⟩

end KRS
